import Mathlib

set_option maxRecDepth 4000

namespace Indexing

/-! Python string primitives shared by the indexers (modelling `str.split()`,
`' '.join`, `re.sub(r'\s+', ' ', _)` and `str.strip()`). -/

def pyIsSpace (c : Char) : Bool := c.isWhitespace

/-- Python `str.split()`: split on runs of whitespace, dropping empty pieces. -/
def splitWsAux : List Char → List Char → List String
  | [], acc => if acc.isEmpty then [] else [String.mk acc.reverse]
  | c :: cs, acc =>
    if pyIsSpace c then
      if acc.isEmpty then splitWsAux cs [] else String.mk acc.reverse :: splitWsAux cs []
    else splitWsAux cs (c :: acc)

def splitWs (s : String) : List String := splitWsAux s.data []

/-- Python `' '.join(ws)`. -/
def joinSpace : List String → String
  | [] => ""
  | [w] => w
  | w :: ws => w ++ " " ++ joinSpace ws

/-- One pass of `re.sub(r'\s+', ' ', text)`: each maximal whitespace run becomes
one space.  The flag records whether the previous character was whitespace. -/
def collapseWsAux : Bool → List Char → List Char
  | _, [] => []
  | prevWs, c :: cs =>
    if pyIsSpace c then
      if prevWs then collapseWsAux true cs else ' ' :: collapseWsAux true cs
    else c :: collapseWsAux false cs

def pyStripChars (cs : List Char) : List Char :=
  ((cs.dropWhile pyIsSpace).reverse.dropWhile pyIsSpace).reverse

/-- Python `str.strip()`. -/
def pyStrip (s : String) : String := String.mk (pyStripChars s.data)

/-- `TextIndexer.clean_text`: `re.sub(r'\s+', ' ', text)` then `.strip()`. -/
def TextIndexer.clean_text (text : String) : String :=
  pyStrip (String.mk (collapseWsAux false text.data))

/-- Python `range(0, stop, step)` for a positive `step`. -/
def pyRangeStep (stop step : Nat) : List Nat :=
  (List.range ((stop + step - 1) / step)).map (fun j => j * step)

/-- `TextIndexer.chunk_text`.  The source iterates
`for i in range(0, len(words), chunk_size - overlap)` and joins
`words[i:i + chunk_size]`, keeping non-empty chunks.  Python raises
`ValueError` when the range step `chunk_size - overlap` is zero, and produces
an empty range when it is negative; the parameters are nonnegative ints. -/
def TextIndexer.chunk_text (text : String) (chunk_size overlap : Nat) :
    Except String (List String) :=
  let words := splitWs text
  if chunk_size = overlap then
    Except.error "ValueError: range() arg 3 must not be zero"
  else if chunk_size < overlap then
    Except.ok []
  else
    Except.ok (((pyRangeStep words.length (chunk_size - overlap)).map
        (fun i => joinSpace ((words.drop i).take chunk_size))).filter (fun c => c != ""))

/-! Data model: JSON values, metadata dictionaries, the per-indexer store. -/

/-- Parsed JSON values (the result of `json.load`).  Floats are modelled by
rationals. -/
inductive JVal where
  | str (s : String)
  | int (n : Int)
  | rat (q : ℚ)
  | bool (b : Bool)
  | null
  | arr (xs : List JVal)
  | obj (kvs : List (String × JVal))

/-- Values stored in a metadata dictionary.  Modality-specific oracle values
(durations, resolutions, EXIF data, ...) are carried as-is. -/
inductive MVal where
  | str (s : String)
  | int (n : Int)
  | rat (q : ℚ)
  | strList (l : List String)
  | jsonRaw (j : JVal)
  | nil

/-- A Python dict used as chunk metadata.  All dictionaries built by the
indexers have pairwise-distinct keys, so an association list with first-match
lookup is a faithful model. -/
def Metadata := List (String × MVal)

def Metadata.hasKey (m : Metadata) (k : String) : Bool :=
  m.any (fun kv => kv.1 == k)

def Metadata.lookup (m : Metadata) (k : String) : Option MVal :=
  (List.find? (fun kv => kv.1 == k) m).map (fun kv => kv.2)

/-- `doc['content']` on the dictionaries built by the indexers (always a
string stored under "content"). -/
def Metadata.getContent (m : Metadata) : String :=
  match m.lookup "content" with
  | some (MVal.str s) => s
  | _ => ""

/-- The in-memory store of one indexer: `self.documents`, `self.embeddings`,
`self.metadata`, three parallel lists.  Embedding vectors are lists of
rationals. -/
structure IndexerState where
  documents : List String
  embeddings : List (List ℚ)
  metadata : List Metadata

/-- The store right after `__init__`: three empty lists. -/
def initialState : IndexerState := ⟨[], [], []⟩

/-- The shared storage step of every `index_file`:
`contents = [doc['content'] for doc in documents]`,
`self.documents.extend(contents)`,
`self.embeddings.extend(self.model.encode(contents))`,
`self.metadata.extend(documents)`.
The sentence-embedding model is the external black box `enc`; its contract
(spec 4.1) is one vector per input string, which `List.map` realises. -/
def appendDocs (enc : String → List ℚ) (docs : List Metadata) (s : IndexerState) :
    IndexerState :=
  let contents := docs.map Metadata.getContent
  { documents := s.documents ++ contents
    embeddings := s.embeddings ++ contents.map enc
    metadata := s.metadata ++ docs }

/-! The text indexer (`src/indexing/text_indexer.py`). -/

/-- Python `', '.join(parts)`. -/
def joinCommaSpace : List String → String
  | [] => ""
  | [w] => w
  | w :: ws => w ++ ", " ++ joinCommaSpace ws

/-- Python `str(x)` for a JSON value (used by
`', '.join(map(str, value))` on list values).  String elements print bare at
top level; nested containers print in repr style. -/
def pyStrJ : JVal → String
  | JVal.str s => s
  | JVal.int n => toString n
  | JVal.rat q => toString q.num ++ (if q.den == 1 then ".0" else "/" ++ toString q.den)
  | JVal.bool b => if b then "True" else "False"
  | JVal.null => "None"
  | JVal.arr xs => "[" ++ joinCommaSpace (xs.attach.map (fun x => pyStrJ x.1)) ++ "]"
  | JVal.obj kvs => "\x7b" ++ joinCommaSpace (kvs.attach.map
      (fun kv => kv.1.1 ++ ": " ++ pyStrJ kv.1.2)) ++ "\x7d"
termination_by j => sizeOf j
decreasing_by
  · have h := List.sizeOf_lt_of_mem x.2
    simp only [JVal.arr.sizeOf_spec]
    omega
  · have h := List.sizeOf_lt_of_mem kv.2
    have h2 : sizeOf kv.1.2 < sizeOf kv.1 := by
      obtain ⟨⟨a, b⟩, hmem⟩ := kv
      simp [Prod.mk.sizeOf_spec]
      try omega
    simp only [JVal.obj.sizeOf_spec]
    omega

/-- The text that `TextIndexer._extract_text_from_dict` generates for one
dictionary value: strings and numbers verbatim (Python bools are ints), lists
joined by ', ', nested dicts recursively extracted; other values (null) are
skipped (the source has no branch for them). -/
def extractJText : JVal → Option String
  | JVal.str s => some s
  | JVal.int n => some (toString n)
  | JVal.rat q => some (pyStrJ (JVal.rat q))
  | JVal.bool b => some (if b then "True" else "False")
  | JVal.arr xs => some (joinCommaSpace (xs.attach.map (fun x => pyStrJ x.1)))
  | JVal.obj kvs => some (joinSpace (kvs.attach.filterMap
      (fun kv => (extractJText kv.1.2).map (fun v => kv.1.1 ++ ": " ++ v))))
  | JVal.null => none
termination_by j => sizeOf j
decreasing_by
  have h := List.sizeOf_lt_of_mem kv.2
  have h2 : sizeOf kv.1.2 < sizeOf kv.1 := by
    obtain ⟨⟨a, b⟩, hmem⟩ := kv
    simp [Prod.mk.sizeOf_spec]
    try omega
  simp only [JVal.obj.sizeOf_spec]
  omega

/-- `TextIndexer._extract_text_from_dict`: one `"key: value"` part per entry
with an extractable value, joined by single spaces. -/
def extract_text_from_dict (kvs : List (String × JVal)) : String :=
  joinSpace (kvs.filterMap
    (fun kv => (extractJText kv.2).map (fun v => kv.1 ++ ": " ++ v)))

/-- `TextIndexer.process_txt_file` after the file read: clean, chunk with the
defaults (300, 50), and build one document dict per chunk.  The `except`
branch returns `[]`; with the default parameters `chunk_text` never fails. -/
def process_txt_file (path : String) (content : String) : List Metadata :=
  match TextIndexer.chunk_text (TextIndexer.clean_text content) 300 50 with
  | Except.error _ => []
  | Except.ok chunks =>
      chunks.enum.map (fun ic =>
        [("content", MVal.str ic.2), ("source", MVal.str path),
         ("type", MVal.str "text"), ("chunk_index", MVal.int ic.1),
         ("total_chunks", MVal.int chunks.length)])

/-- `TextIndexer.process_json_file` after `json.load`: one document per
top-level array element that is a dict, or a single document for a top-level
dict; anything else yields no documents. -/
def process_json_file (path : String) (data : JVal) : List Metadata :=
  match data with
  | JVal.arr items =>
      items.enum.filterMap (fun it =>
        match it.2 with
        | JVal.obj kvs =>
            some [("content", MVal.str (extract_text_from_dict kvs)),
              ("source", MVal.str path), ("type", MVal.str "json"),
              ("item_index", MVal.int it.1), ("raw_data", MVal.jsonRaw it.2)]
        | _ => none)
  | JVal.obj kvs =>
      [[("content", MVal.str (extract_text_from_dict kvs)),
        ("source", MVal.str path), ("type", MVal.str "json"),
        ("raw_data", MVal.jsonRaw data)]]
  | _ => []

/-- What the text indexer finds at a path: a `.txt` file with its contents, a
`.json` file with its parsed value, or a file of any other suffix. -/
inductive TextFile where
  | txt (content : String)
  | json (data : JVal)
  | otherSuffix

/-- `TextIndexer.index_file`.  Missing file or unsupported suffix: `False`
and no store change.  Otherwise process, and store only when at least one
document was produced. -/
def TextIndexer.index_file (enc : String → List ℚ) (fs : String → Option TextFile)
    (path : String) (s : IndexerState) : Bool × IndexerState :=
  match fs path with
  | none => (false, s)
  | some TextFile.otherSuffix => (false, s)
  | some (TextFile.txt content) =>
      let documents := process_txt_file path content
      if documents.isEmpty then (false, s) else (true, appendDocs enc documents s)
  | some (TextFile.json data) =>
      let documents := process_json_file path data
      if documents.isEmpty then (false, s) else (true, appendDocs enc documents s)

/-- Distinct-element count, Python `len(set(xs))`. -/
def distinctCount (xs : List String) : Nat := xs.eraseDups.length

def Metadata.getStr (m : Metadata) (k : String) : String :=
  match m.lookup k with
  | some (MVal.str s) => s
  | _ => ""

/-- `TextIndexer.get_stats`: read-only aggregate counts over the store. -/
def TextIndexer.get_stats (s : IndexerState) : Metadata :=
  [("total_documents", MVal.int s.documents.length),
   ("total_files", MVal.int (distinctCount (s.metadata.map (fun m => m.getStr "source")))),
   ("types", MVal.strList (s.metadata.map (fun m => m.getStr "type")).eraseDups)]

/-! The PDF indexer (`src/indexing/pdf_indexer.py`). -/

def isSentPunct (c : Char) : Bool := c == '.' || c == '!' || c == '?'

/-- `re.split(r'[.!?]+\s+', text)`: a separator is a maximal run of sentence
punctuation followed by at least one whitespace character; the whitespace run
is consumed greedily.  A punctuation run not followed by whitespace separates
nothing (no suffix of the run is followed by whitespace either, so the
regex cannot match inside it).  The `fuel` parameter makes the recursion
structural; every call consumes at least one character, so
`fuel = length + 1` always suffices. -/
def splitSentencesAux : Nat → List Char → List Char → List String
  | _, [], acc => [String.mk acc.reverse]
  | 0, _ :: _, acc => [String.mk acc.reverse]
  | fuel + 1, c :: cs, acc =>
    if isSentPunct c then
      match cs.dropWhile isSentPunct with
      | r :: rs =>
        if pyIsSpace r then
          String.mk acc.reverse :: splitSentencesAux fuel (rs.dropWhile pyIsSpace) []
        else splitSentencesAux fuel cs (c :: acc)
      | [] => splitSentencesAux fuel cs (c :: acc)
    else splitSentencesAux fuel cs (c :: acc)

def splitSentences (text : String) : List String :=
  splitSentencesAux (text.data.length + 1) text.data []

/-- Characters kept by `PDFIndexer.clean_text`:
`re.sub(r'[^\w\s\.,!?;:\-\(\)\[\]\"\'\/\@\#\$\%\&\*\+\=]', ' ', text)`
(`\w` is modelled by ASCII alphanumerics plus underscore). -/
def pdfAllowedChar (c : Char) : Bool :=
  c.isAlphanum || c == '_' || c.isWhitespace ||
  c == '.' || c == ',' || c == '!' || c == '?' || c == ';' || c == ':' ||
  c == '-' || c == '(' || c == ')' || c == '[' || c == ']' || c == '"' ||
  c == '\'' || c == '/' || c == '@' || c == '#' || c == '$' || c == '%' ||
  c == '&' || c == '*' || c == '+' || c == '='

/-- `PDFIndexer.clean_text`: collapse whitespace, blank out characters outside
the whitelist, strip. -/
def PDFIndexer.clean_text (text : String) : String :=
  pyStrip (String.mk ((collapseWsAux false text.data).map
    (fun c => if pdfAllowedChar c then c else ' ')))

structure PdfChunkAcc where
  chunks : List String
  current : List String
  currentLen : Nat

/-- One iteration of the sentence-accumulation loop in
`PDFIndexer.chunk_text`.  Note the Python slice `current_chunk[-overlap//20:]`
is the whole list when `overlap // 20 == 0`. -/
def pdfChunkStep (chunk_size overlap : Nat) (st : PdfChunkAcc) (sentence : String) :
    PdfChunkAcc :=
  let sentence_words := (splitWs sentence).length
  if chunk_size < st.currentLen + sentence_words ∧ st.current ≠ [] then
    let ov := overlap / 20
    let overlap_sentences :=
      if ov < st.current.length then
        (if ov == 0 then st.current else st.current.drop (st.current.length - ov))
      else st.current
    let current := overlap_sentences ++ [sentence]
    { chunks := st.chunks ++ [joinSpace st.current]
      current := current
      currentLen := (current.map (fun s => (splitWs s).length)).sum }
  else
    { chunks := st.chunks
      current := st.current ++ [sentence]
      currentLen := st.currentLen + sentence_words }

/-- `PDFIndexer.chunk_text` (defaults 400, 100): greedy sentence packing with
carried-over context sentences. -/
def PDFIndexer.chunk_text (text : String) (chunk_size overlap : Nat) : List String :=
  let st := (splitSentences text).foldl (pdfChunkStep chunk_size overlap) ⟨[], [], 0⟩
  if st.current.isEmpty then st.chunks else st.chunks ++ [joinSpace st.current]

/-- Document-level PDF metadata as built by `extract_text_pypdf2` /
`extract_text_pdfplumber`: always `total_pages` and `extractor`, plus
title/author/subject/creator when the PDF carries document info. -/
structure PdfMeta where
  total_pages : Nat
  extractor : String
  docinfo : Option (String × String × String × String)

def PdfMeta.toPairs (m : PdfMeta) : List (String × MVal) :=
  [("total_pages", MVal.int m.total_pages), ("extractor", MVal.str m.extractor)] ++
  (match m.docinfo with
   | none => []
   | some i => [("title", MVal.str i.1), ("author", MVal.str i.2.1),
       ("subject", MVal.str i.2.2.1), ("creator", MVal.str i.2.2.2)])

/-- What the PDF indexer finds at a path: a `.pdf` file together with the text
and metadata its `extract_text` strategy chain (external libraries PyPDF2 /
pdfplumber) produces for it, or a file of another suffix. -/
inductive PdfFile where
  | pdf (extractedText : String) (meta : PdfMeta)
  | nonPdf

/-- `PDFIndexer.index_file`. -/
def PDFIndexer.index_file (enc : String → List ℚ) (fs : String → Option PdfFile)
    (path : String) (s : IndexerState) : Bool × IndexerState :=
  match fs path with
  | none => (false, s)
  | some PdfFile.nonPdf => (false, s)
  | some (PdfFile.pdf text meta) =>
    if pyStrip text == "" then (false, s)
    else
      let chunks := PDFIndexer.chunk_text (PDFIndexer.clean_text text) 400 100
      if chunks.isEmpty then (false, s)
      else
        let documents := chunks.enum.map (fun ic =>
          [("content", MVal.str ic.2), ("source", MVal.str path),
           ("type", MVal.str "pdf"), ("chunk_index", MVal.int ic.1),
           ("total_chunks", MVal.int chunks.length)] ++ meta.toPairs)
        (true, appendDocs enc documents s)

/-! The image indexer (`src/indexing/image_indexer.py`). -/

structure ExifInfo where
  exifDict : MVal
  date_taken : Option MVal
  camera : Option MVal
  software : Option MVal

/-- Result of `get_image_metadata` (external libraries PIL/hashlib): the
fixed key set of its success dict, or of its exception-handler dict. -/
inductive ImageMeta where
  | ok (file_size fmt mode size width height file_hash ratioV total_pixels color_mode : MVal)
      (exif : Option ExifInfo)
  | err (file_size fmt errMsg : MVal)

def ImageMeta.toPairs : ImageMeta → List (String × MVal)
  | ImageMeta.ok file_size fmt mode size width height file_hash ratioV total_pixels
      color_mode exif =>
      [("file_size", file_size), ("format", fmt), ("mode", mode), ("size", size),
       ("width", width), ("height", height), ("file_hash", file_hash),
       ("aspect_ratio", ratioV), ("total_pixels", total_pixels),
       ("color_mode", color_mode)] ++
      (match exif with
       | none => []
       | some e => [("exif", e.exifDict)] ++
           (match e.date_taken with | none => [] | some v => [("date_taken", v)]) ++
           (match e.camera with | none => [] | some v => [("camera", v)]) ++
           (match e.software with | none => [] | some v => [("software", v)]))
  | ImageMeta.err file_size fmt errMsg =>
      [("file_size", file_size), ("format", fmt), ("error", errMsg)]

/-- What the image indexer finds at a path: an image of a supported suffix
with the metadata, optional color analysis (`analyze_image_colors`; `none`
models the falsy empty dict) and the description string
`generate_image_description` synthesises from them (a deterministic
presentation string; no claim concerns its content), or an unsupported
suffix. -/
inductive ImageFile where
  | img (meta : ImageMeta) (colors : Option MVal) (description : String)
  | unsupportedImg

/-- `ImageIndexer.index_file`: after the existence and suffix checks it always
stores exactly one document and returns `True`. -/
def ImageIndexer.index_file (enc : String → List ℚ) (fs : String → Option ImageFile)
    (path : String) (s : IndexerState) : Bool × IndexerState :=
  match fs path with
  | none => (false, s)
  | some ImageFile.unsupportedImg => (false, s)
  | some (ImageFile.img meta colors description) =>
      let image_metadata := meta.toPairs ++
        (match colors with | none => [] | some c => [("colors_analysis", c)])
      let doc : Metadata :=
        [("content", MVal.str description), ("source", MVal.str path),
         ("type", MVal.str "image"), ("chunk_index", MVal.int 0),
         ("total_chunks", MVal.int 1)] ++ image_metadata
      (true, appendDocs enc [doc] s)

/-! The video indexer (`src/indexing/video_indexer.py`). -/

structure Segment where
  start : ℚ
  stop : ℚ
  text : String

structure Transcription where
  text : String
  language : String
  segments : List Segment

def placeholderText : String :=
  "[Transcrição não disponível - SpeechRecognition não instalado]"

/-- `VideoIndexer.transcribe_audio`: when speech recognition is unavailable
the fixed placeholder record is returned; otherwise the record assembled from
the per-segment engine results (external speech-recognition libraries,
supplied as data). -/
def VideoIndexer.transcribe_audio (speechEnabled : Bool) (engines : Transcription) :
    Transcription :=
  if speechEnabled then engines else ⟨placeholderText, "unknown", []⟩

/-- Python `f"{n:02d}"`. -/
def pad2 (n : Int) : String :=
  if 0 ≤ n ∧ n < 10 then "0" ++ toString n else toString n

/-- Floor of a rational (`Int.fdiv` is floor division and `q.den` is
positive). -/
def ratFloor (q : ℚ) : Int := Int.fdiv q.num (q.den : Int)

/-- `VideoIndexer.format_timestamp`: `int(seconds // 60)` and
`int(seconds % 60)` rendered as `MM:SS` (`//` on floats is the floor, and the
`%` result lies in `[0, 60)`, so `int` truncation is also the floor). -/
def VideoIndexer.format_timestamp (seconds : ℚ) : String :=
  let minutes : Int := ratFloor (seconds / 60)
  let secs : Int := ratFloor (seconds - 60 * (minutes : ℚ))
  pad2 minutes ++ ":" ++ pad2 secs

structure VChunk where
  text : String
  start_time : ℚ
  end_time : ℚ
  segments : List Segment

/-- One iteration of the time-based grouping loop in
`VideoIndexer.chunk_transcription`. -/
def chunkStep (chunk_duration : ℚ) (st : List VChunk × VChunk) (seg : Segment) :
    List VChunk × VChunk :=
  let chunks := st.1
  let cur := st.2
  if cur.start_time + chunk_duration ≤ seg.start ∧ cur.text ≠ "" then
    let finished := { cur with text := pyStrip cur.text }
    let chunks := if finished.text ≠ "" then chunks ++ [finished] else chunks
    (chunks, ⟨seg.text, seg.start, seg.stop, [seg]⟩)
  else
    let cur := if cur.text = "" then { cur with start_time := seg.start } else cur
    (chunks, { cur with
        text := cur.text ++ " " ++ seg.text
        end_time := seg.stop
        segments := cur.segments ++ [seg] })

/-- Python `max(l, default=d)`. -/
def listMaxD (l : List ℚ) (d : ℚ) : ℚ :=
  match l with
  | [] => d
  | x :: xs => xs.foldl max x

/-- `VideoIndexer.chunk_transcription` (default `chunk_duration=60`): group
segments into time windows; if that yields no chunks but raw text exists,
fall back to 200-word chunks whose time bounds scale the maximum segment end
time (default 0) by word position. -/
def VideoIndexer.chunk_transcription (tr : Transcription) (chunk_duration : ℚ) :
    List VChunk :=
  let res := tr.segments.foldl (chunkStep chunk_duration) ([], ⟨"", 0, 0, []⟩)
  let chunks := if pyStrip res.2.text ≠ "" then res.1 ++ [res.2] else res.1
  if chunks.isEmpty ∧ tr.text ≠ "" then
    let words := splitWs tr.text
    let total_duration := listMaxD (tr.segments.map (fun sg => sg.stop)) 0
    (pyRangeStep words.length 200).map (fun i =>
      { text := joinSpace ((words.drop i).take 200)
        start_time := ((i : ℚ) / (words.length : ℚ)) * total_duration
        end_time := (min (((i : ℚ) + 200) / (words.length : ℚ)) 1) * total_duration
        segments := [] })
  else chunks

/-- The externally observable data of one video file: whether
`mp.VideoFileClip` loads it, whether it has an audio track, whether
`write_audiofile` succeeds, whether speech recognition is installed, the
engine transcription results, and the `get_video_metadata` values. -/
structure VideoData where
  loadOk : Bool
  hasAudio : Bool
  writeOk : Bool
  speechEnabled : Bool
  engines : Transcription
  durationV : MVal
  fpsV : MVal
  resolutionV : MVal
  fileSizeV : MVal

inductive VideoFile where
  | video (vd : VideoData)
  | unsupportedVid

/-- `VideoIndexer.extract_audio` with the set of temporary files on disk
threaded through.  `tempfile.NamedTemporaryFile(delete=False)` creates the
file before the audio-track check; on the no-audio path (and on a
`write_audiofile` failure) the function returns `None` without deleting it. -/
def VideoIndexer.extract_audio (tempName : String) (vd : VideoData)
    (temps : List String) : Option String × List String :=
  if !vd.loadOk then (none, temps)
  else
    let temps := temps ++ [tempName]
    if !vd.hasAudio then (none, temps)
    else if !vd.writeOk then (none, temps)
    else (some tempName, temps)

def isSubstrOf (pat s : List Char) : Bool :=
  (List.range (s.length + 1)).any (fun i => (s.drop i).take pat.length == pat)

/-- Python `pat in s` on strings. -/
def pyInStr (pat s : String) : Bool := isSubstrOf pat.data s.data

/-- `VideoIndexer.index_file`.  The result is
(return value, store, temporary files on disk).  The `finally` block removes
the extracted-audio file on every exit of the `try` body; the early
`if not audio_path: return False` exit lies before the `try`, so the
temporary file created by `extract_audio` survives it. -/
def VideoIndexer.index_file (enc : String → List ℚ) (fs : String → Option VideoFile)
    (tempName : String) (path : String) (s : IndexerState) (temps : List String) :
    Bool × IndexerState × List String :=
  match fs path with
  | none => (false, s, temps)
  | some VideoFile.unsupportedVid => (false, s, temps)
  | some (VideoFile.video vd) =>
    match VideoIndexer.extract_audio tempName vd temps with
    | (none, temps2) => (false, s, temps2)
    | (some audio_path, temps2) =>
      let finTemps := temps2.erase audio_path
      let tr := VideoIndexer.transcribe_audio vd.speechEnabled vd.engines
      if (pyStrip tr.text == "" || pyInStr "[Transcrição não disponível" tr.text) &&
          vd.speechEnabled then (false, s, finTemps)
      else
        let chunks := VideoIndexer.chunk_transcription tr 60
        let documents := chunks.enum.map (fun ic =>
          [("content", MVal.str ic.2.text), ("source", MVal.str path),
           ("type", MVal.str "video"), ("chunk_index", MVal.int ic.1),
           ("total_chunks", MVal.int chunks.length),
           ("start_time", MVal.rat ic.2.start_time),
           ("end_time", MVal.rat ic.2.end_time),
           ("start_timestamp", MVal.str (VideoIndexer.format_timestamp ic.2.start_time)),
           ("end_timestamp", MVal.str (VideoIndexer.format_timestamp ic.2.end_time)),
           ("language", MVal.str tr.language),
           ("duration", vd.durationV), ("resolution", vd.resolutionV),
           ("fps", vd.fpsV), ("file_size", vd.fileSizeV),
           ("segments_count", MVal.int ic.2.segments.length)])
        if documents.isEmpty then (false, s, finTemps)
        else (true, appendDocs enc documents s, finTemps)

/-! The shared search pipeline.  All four `search` methods run the same code:
guard on an empty embedding list, encode the query, dot the query vector with
every stored embedding, keep the indices with similarity at least
`min_similarity`, sort them by similarity descending (`np.argsort` then
`[::-1]`; the tie order of `np.argsort` is unspecified, an insertion sort by
similarity realises one valid outcome), truncate to `top_k` and build result
dicts by indexing the three parallel lists (in-bounds whenever the store
invariant holds; out-of-bounds indexing is modelled by defaults). -/

def dotQ (v w : List ℚ) : ℚ := ((v.zip w).map (fun p => p.1 * p.2)).sum

structure SearchResult where
  content : String
  similarity : ℚ
  metadata : Metadata

def simAt (sims : List ℚ) (i : Nat) : ℚ := sims.getD i 0

def insertByDesc (f : Nat → ℚ) (x : Nat) : List Nat → List Nat
  | [] => [x]
  | y :: ys => if f y ≤ f x then x :: y :: ys else y :: insertByDesc f x ys

def sortByDesc (f : Nat → ℚ) : List Nat → List Nat
  | [] => []
  | x :: xs => insertByDesc f x (sortByDesc f xs)

/-- `similarities = np.dot(np.array(self.embeddings), query_embedding.T)`. -/
def simsOf (enc : String → List ℚ) (s : IndexerState) (query : String) : List ℚ :=
  s.embeddings.map (fun e => dotQ e (enc query))

/-- `valid_indices = np.where(similarities >= min_similarity)[0]`. -/
def validOf (enc : String → List ℚ) (s : IndexerState) (query : String)
    (min_similarity : ℚ) : List Nat :=
  (List.range (simsOf enc s query).length).filter
    (fun i => min_similarity ≤ simAt (simsOf enc s query) i)

def searchStore (enc : String → List ℚ) (s : IndexerState) (query : String)
    (top_k : Nat) (min_similarity : ℚ) : List SearchResult :=
  if s.embeddings.isEmpty then []
  else
    if (validOf enc s query min_similarity).isEmpty then []
    else
      ((sortByDesc (simAt (simsOf enc s query))
          (validOf enc s query min_similarity)).take top_k).map (fun i =>
        { content := s.documents.getD i ""
          similarity := simAt (simsOf enc s query) i
          metadata := s.metadata.getD i ([] : Metadata) })

/-- `TextIndexer.search` (defaults `top_k=5`, `min_similarity=0.2`). -/
def TextIndexer.search (enc : String → List ℚ) (s : IndexerState) (query : String)
    (top_k : Nat) (min_similarity : ℚ) : List SearchResult :=
  searchStore enc s query top_k min_similarity

/-- `PDFIndexer.search` (defaults `top_k=5`, `min_similarity=0.3`). -/
def PDFIndexer.search (enc : String → List ℚ) (s : IndexerState) (query : String)
    (top_k : Nat) (min_similarity : ℚ) : List SearchResult :=
  searchStore enc s query top_k min_similarity

def mvalDisplay : MVal → String
  | MVal.str s => s
  | MVal.int n => toString n
  | MVal.rat q => toString q.num ++ (if q.den == 1 then ".0" else "/" ++ toString q.den)
  | MVal.strList l => joinCommaSpace l
  | MVal.jsonRaw j => pyStrJ j
  | MVal.nil => "None"

def mvalToRat : MVal → ℚ
  | MVal.rat q => q
  | MVal.int n => (n : ℚ)
  | _ => 0

def Metadata.getD (m : Metadata) (k : String) (d : MVal) : MVal :=
  match m.lookup k with
  | some v => v
  | none => d

/-- Python `round(q, 2)` (half-integer cents round to the nearest integer
rather than to even; no claim depends on the tie case). -/
def roundTo2 (q : ℚ) : ℚ := ((round (q * 100) : ℤ) : ℚ) / 100

structure VisualInfo where
  dimensions : String
  formatStr : String
  size_mb : ℚ
  ratioVal : MVal

structure ImageSearchResult where
  base : SearchResult
  visual_info : VisualInfo

/-- `ImageIndexer.search` (defaults `top_k=5`, `min_similarity=0.2`): the
shared pipeline plus derived presentation fields. -/
def ImageIndexer.search (enc : String → List ℚ) (s : IndexerState) (query : String)
    (top_k : Nat) (min_similarity : ℚ) : List ImageSearchResult :=
  (searchStore enc s query top_k min_similarity).map (fun r =>
    { base := r
      visual_info :=
        { dimensions := mvalDisplay (r.metadata.getD "width" (MVal.str "N/A")) ++ "x" ++
            mvalDisplay (r.metadata.getD "height" (MVal.str "N/A"))
          formatStr := mvalDisplay (r.metadata.getD "format" (MVal.str "N/A"))
          size_mb := roundTo2 (mvalToRat (r.metadata.getD "file_size" (MVal.int 0)) /
            (1024 * 1024))
          ratioVal := r.metadata.getD "aspect_ratio" (MVal.int 0) } })

def mvalStrD (m : Metadata) (k : String) (d : String) : String :=
  match m.lookup k with
  | some v => mvalDisplay v
  | none => d

def mvalRatD (m : Metadata) (k : String) (d : ℚ) : ℚ :=
  match m.lookup k with
  | some v => mvalToRat v
  | none => d

structure TimeInfo where
  startTs : String
  endTs : String
  duration_seconds : ℚ

structure VideoSearchResult where
  base : SearchResult
  time_info : TimeInfo

/-- `VideoIndexer.search` (defaults `top_k=5`, `min_similarity=0.3`): the
shared pipeline plus derived time-navigation fields. -/
def VideoIndexer.search (enc : String → List ℚ) (s : IndexerState) (query : String)
    (top_k : Nat) (min_similarity : ℚ) : List VideoSearchResult :=
  (searchStore enc s query top_k min_similarity).map (fun r =>
    { base := r
      time_info :=
        { startTs := mvalStrD r.metadata "start_timestamp" "00:00"
          endTs := mvalStrD r.metadata "end_timestamp" "00:00"
          duration_seconds := mvalRatD r.metadata "end_time" 0 -
            mvalRatD r.metadata "start_time" 0 } })

/-! The retrieval aggregator's deduplication
(`AdaptivePromptSystem._deduplicate_results` in
`src/adaptive_learning/prompt_system.py`): first-seen wins, keyed by
`hash(result.get('content', '')[:100])`.  The hash is modelled injectively by
the 100-character prefix itself. -/

def fingerprint (r : SearchResult) : String := r.content.take 100

def dedupAux (seen : List String) : List SearchResult → List SearchResult
  | [] => []
  | r :: rs =>
    let h := fingerprint r
    if h ∈ seen then dedupAux seen rs
    else r :: dedupAux (h :: seen) rs

def deduplicate_results (rs : List SearchResult) : List SearchResult := dedupAux [] rs

/-! Concrete fixtures used by counterexamples and witnesses. -/

/-- A cleaned text of exactly 300 words. -/
def t300 : String := joinSpace (List.replicate 300 "w")

def encW : String → List ℚ := fun _ => [1]

def fsT : String → Option TextFile :=
  fun p => if p = "doc.txt" then some (TextFile.txt t300) else none

def fsJ : String → Option TextFile :=
  fun p => if p = "data.json" then some (TextFile.json (JVal.obj [("a", JVal.str "b")]))
    else none

/-- A video that loads fine but has no audio track. -/
def vdNoAudio : VideoData :=
  { loadOk := true, hasAudio := false, writeOk := true, speechEnabled := true
    engines := ⟨"", "unknown", []⟩, durationV := MVal.nil, fpsV := MVal.nil
    resolutionV := MVal.nil, fileSizeV := MVal.nil }

def fsV : String → Option VideoFile :=
  fun p => if p = "video.mp4" then some (VideoFile.video vdNoAudio) else none

def fsT1 : String → Option TextFile := fun _ => some (TextFile.txt "a")

def fsP1 : String → Option PdfFile :=
  fun _ => some (PdfFile.pdf "Hello." ⟨1, "pdfplumber", none⟩)

def fsI1 : String → Option ImageFile :=
  fun _ => some (ImageFile.img (ImageMeta.err MVal.nil MVal.nil MVal.nil) none "img")

/-- A readable video whose indexing run degrades to the placeholder
transcript (speech recognition unavailable). -/
def vdPl : VideoData :=
  { loadOk := true, hasAudio := true, writeOk := true, speechEnabled := false
    engines := ⟨"", "unknown", []⟩, durationV := MVal.nil, fpsV := MVal.nil
    resolutionV := MVal.nil, fileSizeV := MVal.nil }

def fsV1 : String → Option VideoFile := fun _ => some (VideoFile.video vdPl)

/-- The three parallel containers have equal lengths. -/
def lenEq (s : IndexerState) : Prop :=
  s.documents.length = s.embeddings.length ∧ s.embeddings.length = s.metadata.length

/-- The metadata entries appended to the store by a call that turned state
`s` into state `s2`. -/
def newMeta (s s2 : IndexerState) : List Metadata :=
  s2.metadata.drop s.metadata.length

/-- The metadata-key obligations of spec section 3 for one stored chunk of
modality tag `ty`. -/
def reqKeys (ty : String) (m : Metadata) : Prop :=
  m.hasKey "source" = true ∧ m.lookup "type" = some (MVal.str ty) ∧
  m.hasKey "chunk_index" = true ∧ m.hasKey "total_chunks" = true

/-! Helper lemmas. -/

theorem mem_splitWsAux_ne_nil (cs : List Char) :
    ∀ (acc : List Char) (w : String), w ∈ splitWsAux cs acc → w ≠ "" := by
  induction cs with
  | nil =>
    intro acc w hw
    simp only [splitWsAux] at hw
    split at hw
    · simp at hw
    · next hne =>
      simp only [List.mem_singleton] at hw
      subst hw
      intro hcon
      apply hne
      have : acc.reverse = [] := by
        have := congrArg String.data hcon
        simpa using this
      simpa [List.isEmpty_iff] using List.reverse_eq_nil_iff.mp this
  | cons c cs ih =>
    intro acc w hw
    simp only [splitWsAux] at hw
    split at hw
    · split at hw
      · exact ih [] w hw
      · next hne =>
        rcases List.mem_cons.mp hw with h1 | h2
        · subst h1
          intro hcon
          apply hne
          have : acc.reverse = [] := by
            have := congrArg String.data hcon
            simpa using this
          simpa [List.isEmpty_iff] using List.reverse_eq_nil_iff.mp this
        · exact ih [] w h2
    · exact ih (c :: acc) w hw

theorem mem_splitWs_ne_nil (s : String) (w : String) (hw : w ∈ splitWs s) : w ≠ "" :=
  mem_splitWsAux_ne_nil s.data [] w hw

theorem joinSpace_cons_ne_nil (w : String) (ws : List String) (hw : w ≠ "") :
    joinSpace (w :: ws) ≠ "" := by
  cases ws with
  | nil => simpa [joinSpace] using hw
  | cons v vs =>
    show w ++ " " ++ joinSpace (v :: vs) ≠ ""
    intro hcon
    have hd : w.data ++ (" " : String).data ++ (joinSpace (v :: vs)).data = [] := by
      have := congrArg String.data hcon
      exact this
    rcases List.append_eq_nil.mp hd with ⟨h1, _⟩
    rcases List.append_eq_nil.mp h1 with ⟨_, h2⟩
    exact absurd h2 (by decide)

theorem appendDocs_lenEq (enc : String → List ℚ) (docs : List Metadata)
    (s : IndexerState) (h : lenEq s) : lenEq (appendDocs enc docs s) := by
  obtain ⟨h1, h2⟩ := h
  constructor <;> simp [appendDocs, h1, h2]

theorem newMeta_self (s : IndexerState) : newMeta s s = [] := List.drop_length _

theorem newMeta_appendDocs (enc : String → List ℚ) (docs : List Metadata)
    (s : IndexerState) : newMeta s (appendDocs enc docs s) = docs := by
  simp only [newMeta, appendDocs]
  exact List.drop_left _ _

theorem mem_insertByDesc (f : Nat → ℚ) (x a : Nat) (l : List Nat) :
    a ∈ insertByDesc f x l ↔ a = x ∨ a ∈ l := by
  induction l with
  | nil => simp [insertByDesc]
  | cons y ys ih =>
    simp only [insertByDesc]
    split
    · simp [List.mem_cons]
    · simp only [List.mem_cons, ih]
      tauto

theorem mem_sortByDesc (f : Nat → ℚ) (a : Nat) (l : List Nat) :
    a ∈ sortByDesc f l ↔ a ∈ l := by
  induction l with
  | nil => simp [sortByDesc]
  | cons y ys ih => simp [sortByDesc, mem_insertByDesc, ih]

theorem pairwise_insertByDesc (f : Nat → ℚ) (x : Nat) (l : List Nat)
    (h : l.Pairwise (fun a b => f b ≤ f a)) :
    (insertByDesc f x l).Pairwise (fun a b => f b ≤ f a) := by
  induction l with
  | nil => simp [insertByDesc]
  | cons y ys ih =>
    rcases List.pairwise_cons.mp h with ⟨hy, hys⟩
    simp only [insertByDesc]
    split
    · next hle =>
      refine List.pairwise_cons.mpr ⟨?_, h⟩
      intro b hb
      rcases List.mem_cons.mp hb with h1 | h2
      · subst h1; exact hle
      · exact le_trans (hy b h2) hle
    · next hgt =>
      refine List.pairwise_cons.mpr ⟨?_, ih hys⟩
      intro b hb
      rcases (mem_insertByDesc f x b ys).mp hb with h1 | h2
      · subst h1; exact le_of_not_le hgt
      · exact hy b h2

theorem pairwise_sortByDesc (f : Nat → ℚ) (l : List Nat) :
    (sortByDesc f l).Pairwise (fun a b => f b ≤ f a) := by
  induction l with
  | nil => simp [sortByDesc]
  | cons y ys ih => exact pairwise_insertByDesc f y _ ih

/-! Claim theorems. -/

/-- C1 (counterexample): indexing a `.txt` file whose cleaned text has
exactly 300 words with the default chunk settings stores TWO chunks, not one
(the loop strides by 250 and `words[250:550]` is the non-empty 50-word
tail), the first chunk being the whole cleaned text. -/
theorem c1_counterexample :
    (TextIndexer.index_file encW fsT "doc.txt" initialState).1 = true ∧
    (TextIndexer.index_file encW fsT "doc.txt" initialState).2.documents =
      [t300, joinSpace (List.replicate 50 "w")] := by
  exact ⟨rfl, rfl⟩

/-- C1 (amended): for every whitespace-normalized text of exactly 300 words,
`chunk_text` with the defaults (300, 50) produces exactly 2 chunks; the first
equals the whole cleaned text and the second is its last 50 words. -/
theorem c1_amended_chunk300 (t : String) (hjoin : joinSpace (splitWs t) = t)
    (hlen : (splitWs t).length = 300) :
    TextIndexer.chunk_text t 300 50 =
      Except.ok [t, joinSpace ((splitWs t).drop 250)] := by
  have hrange : pyRangeStep 300 250 = [0, 250] := rfl
  have hwords : splitWs t ≠ [] := by
    intro hcon
    rw [hcon] at hlen
    simp at hlen
  obtain ⟨w, ws, hcons⟩ := List.exists_cons_of_ne_nil hwords
  have htake : (splitWs t).take 300 = splitWs t :=
    List.take_of_length_le (by omega)
  have hdroplen : ((splitWs t).drop 250).length = 50 := by
    simp [List.length_drop, hlen]
  have htake2 : ((splitWs t).drop 250).take 300 = (splitWs t).drop 250 :=
    List.take_of_length_le (by omega)
  have ht_ne : t ≠ "" := by
    rw [← hjoin, hcons]
    exact joinSpace_cons_ne_nil w ws (mem_splitWs_ne_nil t w (hcons ▸ List.mem_cons_self w ws))
  have hdrop_ne : joinSpace ((splitWs t).drop 250) ≠ "" := by
    have hne : (splitWs t).drop 250 ≠ [] := by
      intro hcon
      rw [hcon] at hdroplen
      simp at hdroplen
    obtain ⟨v, vs, hcons2⟩ := List.exists_cons_of_ne_nil hne
    rw [hcons2]
    refine joinSpace_cons_ne_nil v vs (mem_splitWs_ne_nil t v ?_)
    exact List.mem_of_mem_drop (hcons2 ▸ List.mem_cons_self v vs)
  have hb1 : (t != "") = true := by simpa [bne_iff_ne] using ht_ne
  have hb2 : (joinSpace ((splitWs t).drop 250) != "") = true := by
    simpa [bne_iff_ne] using hdrop_ne
  simp only [TextIndexer.chunk_text, hlen, hrange]
  norm_num
  simp only [List.drop_zero, htake, htake2, hjoin]
  simp [List.filter, hb1, hb2]

/-- C1 (amended, witness): the amended statement at a concrete 300-word
cleaned text. -/
theorem c1_amended_chunk300_witness :
    joinSpace (splitWs t300) = t300 ∧ (splitWs t300).length = 300 ∧
    TextIndexer.chunk_text t300 300 50 =
      Except.ok [t300, joinSpace ((splitWs t300).drop 250)] :=
  ⟨rfl, rfl, c1_amended_chunk300 t300 rfl rfl⟩

/-- C2: `chunk_text` does NOT guard against `chunk_size == overlap`; Python
`range(0, len(words), 0)` raises `ValueError`, so the call fails instead of
completing. -/
theorem c2_chunk_text_equal_params_raises :
    TextIndexer.chunk_text "a b c" 50 50 =
      Except.error "ValueError: range() arg 3 must not be zero" := rfl

/-- C9 (helper): deduplication over an explicit seen-set is idempotent. -/
theorem dedupAux_idem (rs : List SearchResult) :
    ∀ seen : List String, dedupAux seen (dedupAux seen rs) = dedupAux seen rs := by
  induction rs with
  | nil => intro seen; rfl
  | cons r rs ih =>
    intro seen
    simp only [dedupAux]
    split
    · exact ih seen
    · next hnot =>
      simp only [dedupAux]
      split
      · next habs => exact absurd habs hnot
      · rw [ih (fingerprint r :: seen)]

/-- C9: the Aggregator's deduplication (first occurrence wins, keyed by the
first 100 characters of `content`) is idempotent. -/
theorem c9_dedup_idempotent (rs : List SearchResult) :
    deduplicate_results (deduplicate_results rs) = deduplicate_results rs :=
  dedupAux_idem rs []

/-- C10: for a transcription with non-empty text but no segments, the
word-count fallback of `chunk_transcription` scales by
`max([seg['end'] ...], default=0) = 0`, so every produced chunk has
`start_time = end_time = 0` and both formatted timestamps are "00:00". -/
theorem c10_empty_segments_chunks_zero (text lang : String) (h : text ≠ "") :
    ∀ ch ∈ VideoIndexer.chunk_transcription ⟨text, lang, []⟩ 60,
      ch.start_time = 0 ∧ ch.end_time = 0 ∧
      VideoIndexer.format_timestamp ch.start_time = "00:00" ∧
      VideoIndexer.format_timestamp ch.end_time = "00:00" := by
  intro ch hch
  have hfmt : VideoIndexer.format_timestamp 0 = "00:00" := by
    have h0 : ratFloor 0 = 0 := by simp [ratFloor]
    simp only [VideoIndexer.format_timestamp, zero_div, h0, Int.cast_zero, mul_zero,
      sub_zero, pad2]
    norm_num
    rfl
  simp only [VideoIndexer.chunk_transcription, List.foldl_nil, List.map_nil] at hch
  rw [if_pos ⟨rfl, h⟩] at hch
  rcases List.mem_map.mp hch with ⟨i, _, hi⟩
  have hs : ch.start_time = 0 := by rw [← hi]; simp [listMaxD]
  have he : ch.end_time = 0 := by rw [← hi]; simp [listMaxD]
  exact ⟨hs, he, hs ▸ hfmt, he ▸ hfmt⟩

/-- C10 (witness): the concrete one-word transcription "hello" with no
segments yields the single chunk ("hello", 0, 0) formatted "00:00"-"00:00". -/
theorem c10_empty_segments_chunks_zero_witness :
    ("hello" : String) ≠ "" ∧
    ((VideoIndexer.chunk_transcription ⟨"hello", "pt-BR", []⟩ 60).getD 0
        ⟨"", 1, 1, []⟩).start_time = 0 ∧
    ((VideoIndexer.chunk_transcription ⟨"hello", "pt-BR", []⟩ 60).getD 0
        ⟨"", 1, 1, []⟩).end_time = 0 := by
  have hne : ("hello" : String) ≠ "" := by decide
  have hm : ((VideoIndexer.chunk_transcription ⟨"hello", "pt-BR", []⟩ 60).getD 0
      ⟨"", 1, 1, []⟩) ∈ VideoIndexer.chunk_transcription ⟨"hello", "pt-BR", []⟩ 60 := by
    show ((VideoIndexer.chunk_transcription ⟨"hello", "pt-BR", []⟩ 60).getD 0
        ⟨"", 1, 1, []⟩) ∈
      [((VideoIndexer.chunk_transcription ⟨"hello", "pt-BR", []⟩ 60).getD 0 ⟨"", 1, 1, []⟩)]
    exact List.mem_singleton.mpr rfl
  have := c10_empty_segments_chunks_zero "hello" "pt-BR" hne _ hm
  exact ⟨hne, this.1, this.2.1⟩

theorem searchStore_length_le (enc : String → List ℚ) (s : IndexerState)
    (query : String) (k : Nat) (m : ℚ) : (searchStore enc s query k m).length ≤ k := by
  unfold searchStore
  split
  · simp
  · split
    · simp
    · simp only [List.length_map]
      exact List.length_take_le _ _

theorem searchStore_sorted (enc : String → List ℚ) (s : IndexerState)
    (query : String) (k : Nat) (m : ℚ) :
    (searchStore enc s query k m).Pairwise
      (fun a b => b.similarity ≤ a.similarity) := by
  unfold searchStore
  split
  · simp
  · split
    · simp
    · rw [List.pairwise_map]
      exact (pairwise_sortByDesc _ _).sublist (List.take_sublist _ _)

theorem searchStore_min (enc : String → List ℚ) (s : IndexerState)
    (query : String) (k : Nat) (m : ℚ) :
    ∀ r ∈ searchStore enc s query k m, m ≤ r.similarity := by
  unfold searchStore
  split
  · simp
  · split
    · simp
    · intro r hr
      rcases List.mem_map.mp hr with ⟨i, hi, hmk⟩
      have hi2 : i ∈ validOf enc s query m :=
        (mem_sortByDesc _ _ _).mp (List.mem_of_mem_take hi)
      have hp := (List.mem_filter.mp hi2).2
      rw [← hmk]
      exact of_decide_eq_true hp

/-- C6: for every indexer, every store, every query: search returns at most
`top_k` results, sorted by non-increasing similarity, and never one with
similarity below `min_similarity`.  All four `search` methods run the shared
pipeline (the image and video variants only add derived presentation
fields). -/
theorem c6_search_contract (enc : String → List ℚ) (s : IndexerState) (query : String)
    (k : Nat) (m : ℚ) :
    ((TextIndexer.search enc s query k m).length ≤ k ∧
      (TextIndexer.search enc s query k m).Pairwise
        (fun a b => b.similarity ≤ a.similarity) ∧
      ∀ r ∈ TextIndexer.search enc s query k m, m ≤ r.similarity) ∧
    ((PDFIndexer.search enc s query k m).length ≤ k ∧
      (PDFIndexer.search enc s query k m).Pairwise
        (fun a b => b.similarity ≤ a.similarity) ∧
      ∀ r ∈ PDFIndexer.search enc s query k m, m ≤ r.similarity) ∧
    ((ImageIndexer.search enc s query k m).length ≤ k ∧
      (ImageIndexer.search enc s query k m).Pairwise
        (fun a b => b.base.similarity ≤ a.base.similarity) ∧
      ∀ r ∈ ImageIndexer.search enc s query k m, m ≤ r.base.similarity) ∧
    ((VideoIndexer.search enc s query k m).length ≤ k ∧
      (VideoIndexer.search enc s query k m).Pairwise
        (fun a b => b.base.similarity ≤ a.base.similarity) ∧
      ∀ r ∈ VideoIndexer.search enc s query k m, m ≤ r.base.similarity) := by
  refine ⟨⟨searchStore_length_le enc s query k m, searchStore_sorted enc s query k m,
      searchStore_min enc s query k m⟩,
    ⟨searchStore_length_le enc s query k m, searchStore_sorted enc s query k m,
      searchStore_min enc s query k m⟩, ⟨?_, ?_, ?_⟩, ⟨?_, ?_, ?_⟩⟩
  · simpa [ImageIndexer.search] using searchStore_length_le enc s query k m
  · rw [ImageIndexer.search, List.pairwise_map]
    exact searchStore_sorted enc s query k m
  · intro r hr
    rcases List.mem_map.mp hr with ⟨x, hx, hmk⟩
    rw [← hmk]
    exact searchStore_min enc s query k m x hx
  · simpa [VideoIndexer.search] using searchStore_length_le enc s query k m
  · rw [VideoIndexer.search, List.pairwise_map]
    exact searchStore_sorted enc s query k m
  · intro r hr
    rcases List.mem_map.mp hr with ⟨x, hx, hmk⟩
    rw [← hmk]
    exact searchStore_min enc s query k m x hx

/-- C7: search on an empty store returns the empty list (and, the model being
total, never raises), for every query, `top_k` and `min_similarity`, on all
four indexers. -/
theorem c7_search_empty_store (enc : String → List ℚ) (s : IndexerState)
    (query : String) (k : Nat) (m : ℚ) (h : s.embeddings = []) :
    TextIndexer.search enc s query k m = [] ∧
    PDFIndexer.search enc s query k m = [] ∧
    ImageIndexer.search enc s query k m = [] ∧
    VideoIndexer.search enc s query k m = [] := by
  have hcore : searchStore enc s query k m = [] := by
    unfold searchStore
    rw [h]
    simp
  refine ⟨hcore, hcore, ?_, ?_⟩
  · rw [ImageIndexer.search, hcore]
    rfl
  · rw [VideoIndexer.search, hcore]
    rfl

/-- C7 (witness): the freshly constructed store. -/
theorem c7_search_empty_store_witness :
    TextIndexer.search encW initialState "q" 5 (1/5) = [] ∧
    PDFIndexer.search encW initialState "q" 5 (3/10) = [] ∧
    ImageIndexer.search encW initialState "q" 5 (1/5) = [] ∧
    VideoIndexer.search encW initialState "q" 5 (3/10) = [] :=
  ⟨(c7_search_empty_store encW initialState "q" 5 (1/5) rfl).1,
   (c7_search_empty_store encW initialState "q" 5 (3/10) rfl).2.1,
   (c7_search_empty_store encW initialState "q" 5 (1/5) rfl).2.2.1,
   (c7_search_empty_store encW initialState "q" 5 (3/10) rfl).2.2.2⟩

/-- C5: the three parallel containers are equal-length at construction, and
every `index_file` preserves that invariant (it appends one content, one
embedding and one metadata dict per document).  `search` and `get_stats`
read the store without mutating it, which the embedding expresses by making
them plain functions of the state. -/
theorem c5_parallel_invariant :
    lenEq initialState ∧
    (∀ (enc : String → List ℚ) (fs : String → Option TextFile) (path : String)
      (s : IndexerState), lenEq s → lenEq (TextIndexer.index_file enc fs path s).2) ∧
    (∀ (enc : String → List ℚ) (fs : String → Option PdfFile) (path : String)
      (s : IndexerState), lenEq s → lenEq (PDFIndexer.index_file enc fs path s).2) ∧
    (∀ (enc : String → List ℚ) (fs : String → Option ImageFile) (path : String)
      (s : IndexerState), lenEq s → lenEq (ImageIndexer.index_file enc fs path s).2) ∧
    (∀ (enc : String → List ℚ) (fs : String → Option VideoFile) (tmp path : String)
      (s : IndexerState) (temps : List String), lenEq s →
      lenEq (VideoIndexer.index_file enc fs tmp path s temps).2.1) := by
  refine ⟨⟨rfl, rfl⟩, ?_, ?_, ?_, ?_⟩
  · intro enc fs path s hs
    unfold TextIndexer.index_file
    split
    · exact hs
    · exact hs
    · dsimp only
      split
      · exact hs
      · exact appendDocs_lenEq _ _ _ hs
    · dsimp only
      split
      · exact hs
      · exact appendDocs_lenEq _ _ _ hs
  · intro enc fs path s hs
    unfold PDFIndexer.index_file
    split
    · exact hs
    · exact hs
    · split
      · exact hs
      · dsimp only
        split
        · exact hs
        · exact appendDocs_lenEq _ _ _ hs
  · intro enc fs path s hs
    unfold ImageIndexer.index_file
    split
    · exact hs
    · exact hs
    · exact appendDocs_lenEq _ _ _ hs
  · intro enc fs tmp path s temps hs
    unfold VideoIndexer.index_file
    split
    · exact hs
    · exact hs
    · split
      · exact hs
      · dsimp only
        split
        · exact hs
        · split
          · exact hs
          · exact appendDocs_lenEq _ _ _ hs

/-- C5 (witness): concrete runs on each indexer starting from the fresh
store. -/
theorem c5_parallel_invariant_witness :
    lenEq initialState ∧
    lenEq (TextIndexer.index_file encW fsT "doc.txt" initialState).2 ∧
    lenEq (PDFIndexer.index_file encW (fun _ => none) "x.pdf" initialState).2 ∧
    lenEq (ImageIndexer.index_file encW (fun _ => none) "x.png" initialState).2 ∧
    lenEq (VideoIndexer.index_file encW fsV "tmp_audio.wav" "video.mp4" initialState
      []).2.1 :=
  ⟨c5_parallel_invariant.1,
   c5_parallel_invariant.2.1 encW fsT "doc.txt" initialState c5_parallel_invariant.1,
   c5_parallel_invariant.2.2.1 encW (fun _ => none) "x.pdf" initialState
     c5_parallel_invariant.1,
   c5_parallel_invariant.2.2.2.1 encW (fun _ => none) "x.png" initialState
     c5_parallel_invariant.1,
   c5_parallel_invariant.2.2.2.2 encW fsV "tmp_audio.wav" "video.mp4" initialState []
     c5_parallel_invariant.1⟩

/-- C8: `index_file` on a path that does not exist returns `False` and leaves
the store (and, for the video indexer, the temporary files) unchanged, on all
four indexers. -/
theorem c8_missing_file (enc : String → List ℚ) (path tmp : String) (s : IndexerState)
    (fs1 : String → Option TextFile) (fs2 : String → Option PdfFile)
    (fs3 : String → Option ImageFile) (fs4 : String → Option VideoFile)
    (temps : List String) (h1 : fs1 path = none) (h2 : fs2 path = none)
    (h3 : fs3 path = none) (h4 : fs4 path = none) :
    TextIndexer.index_file enc fs1 path s = (false, s) ∧
    PDFIndexer.index_file enc fs2 path s = (false, s) ∧
    ImageIndexer.index_file enc fs3 path s = (false, s) ∧
    VideoIndexer.index_file enc fs4 tmp path s temps = (false, s, temps) := by
  unfold TextIndexer.index_file PDFIndexer.index_file ImageIndexer.index_file
    VideoIndexer.index_file
  rw [h1, h2, h3, h4]
  exact ⟨rfl, rfl, rfl, rfl⟩

/-- C8 (witness): a file system with no files at all. -/
theorem c8_missing_file_witness :
    TextIndexer.index_file encW (fun _ => none) "missing.txt" initialState =
      (false, initialState) ∧
    PDFIndexer.index_file encW (fun _ => none) "missing.txt" initialState =
      (false, initialState) ∧
    ImageIndexer.index_file encW (fun _ => none) "missing.txt" initialState =
      (false, initialState) ∧
    VideoIndexer.index_file encW (fun _ => none) "tmp.wav" "missing.txt" initialState
      [] = (false, initialState, []) :=
  c8_missing_file encW "missing.txt" "tmp.wav" initialState _ _ _ _ [] rfl rfl rfl rfl

/-- C3: a video file with no audio track makes `index_file` return `False`
without raising and with the store unchanged — but the temporary file created
by `tempfile.NamedTemporaryFile(delete=False)` before the audio-track check
is never removed on that path, so a residual temporary file remains on
disk. -/
theorem c3_no_audio_leaves_temp_file :
    VideoIndexer.index_file encW fsV "tmp_audio.wav" "video.mp4" initialState [] =
      (false, initialState, ["tmp_audio.wav"]) := rfl

/-- C4 (counterexample): a successful `index_file` on a `.json` file stores
metadata with `type = "json"` (not one of text/pdf/image/video) and without
the `chunk_index` and `total_chunks` keys. -/
theorem c4_counterexample :
    (TextIndexer.index_file encW fsJ "data.json" initialState).1 = true ∧
    (TextIndexer.index_file encW fsJ "data.json" initialState).2.metadata.length = 1 ∧
    ((TextIndexer.index_file encW fsJ "data.json" initialState).2.metadata.getD 0
      ([] : Metadata)).hasKey "chunk_index" = false ∧
    ((TextIndexer.index_file encW fsJ "data.json" initialState).2.metadata.getD 0
      ([] : Metadata)).hasKey "total_chunks" = false ∧
    ((TextIndexer.index_file encW fsJ "data.json" initialState).2.metadata.getD 0
      ([] : Metadata)).lookup "type" = some (MVal.str "json") :=
  ⟨rfl, rfl, rfl, rfl, rfl⟩

/-- C4 (amended): every successful `index_file` stores metadata containing
`source` and `type`; on the PDF, image and video indexers and on the text
indexer's `.txt` path the type is the modality tag and `chunk_index` /
`total_chunks` are present, while the text indexer's `.json` path stores
`type = "json"` and omits `chunk_index` / `total_chunks`. -/
theorem c4_amended_metadata_keys :
    (∀ (enc : String → List ℚ) (fs : String → Option TextFile) (path : String)
      (s : IndexerState) (content : String), fs path = some (TextFile.txt content) →
      ∀ m ∈ newMeta s (TextIndexer.index_file enc fs path s).2, reqKeys "text" m) ∧
    (∀ (enc : String → List ℚ) (fs : String → Option PdfFile) (path : String)
      (s : IndexerState) (text : String) (pmeta : PdfMeta),
      fs path = some (PdfFile.pdf text pmeta) →
      ∀ m ∈ newMeta s (PDFIndexer.index_file enc fs path s).2, reqKeys "pdf" m) ∧
    (∀ (enc : String → List ℚ) (fs : String → Option ImageFile) (path : String)
      (s : IndexerState) (imeta : ImageMeta) (colors : Option MVal) (descr : String),
      fs path = some (ImageFile.img imeta colors descr) →
      ∀ m ∈ newMeta s (ImageIndexer.index_file enc fs path s).2, reqKeys "image" m) ∧
    (∀ (enc : String → List ℚ) (fs : String → Option VideoFile) (tmp path : String)
      (s : IndexerState) (temps : List String) (vd : VideoData),
      fs path = some (VideoFile.video vd) →
      ∀ m ∈ newMeta s (VideoIndexer.index_file enc fs tmp path s temps).2.1,
        reqKeys "video" m) ∧
    (∀ (enc : String → List ℚ) (fs : String → Option TextFile) (path : String)
      (s : IndexerState) (data : JVal), fs path = some (TextFile.json data) →
      ∀ m ∈ newMeta s (TextIndexer.index_file enc fs path s).2,
        m.hasKey "source" = true ∧ m.lookup "type" = some (MVal.str "json") ∧
        m.hasKey "chunk_index" = false ∧ m.hasKey "total_chunks" = false) := by
  refine ⟨?_, ?_, ?_, ?_, ?_⟩
  · intro enc fs path s content hfs m hm
    simp only [TextIndexer.index_file, hfs] at hm
    split at hm
    · simp [newMeta, List.drop_length] at hm
    · simp only [newMeta, appendDocs, List.drop_left] at hm
      simp only [process_txt_file] at hm
      split at hm
      · simp at hm
      · rcases List.mem_map.mp hm with ⟨ic, _, hmk⟩
        subst hmk
        exact ⟨rfl, rfl, rfl, rfl⟩
  · intro enc fs path s text pmeta hfs m hm
    simp only [PDFIndexer.index_file, hfs] at hm
    split at hm
    · simp [newMeta, List.drop_length] at hm
    · split at hm
      · simp [newMeta, List.drop_length] at hm
      · simp only [newMeta, appendDocs, List.drop_left] at hm
        rcases List.mem_map.mp hm with ⟨ic, _, hmk⟩
        subst hmk
        exact ⟨rfl, rfl, rfl, rfl⟩
  · intro enc fs path s imeta colors descr hfs m hm
    simp only [ImageIndexer.index_file, hfs] at hm
    simp only [newMeta, appendDocs, List.drop_left, List.mem_singleton] at hm
    subst hm
    exact ⟨rfl, rfl, rfl, rfl⟩
  · intro enc fs tmp path s temps vd hfs m hm
    simp only [VideoIndexer.index_file, hfs] at hm
    split at hm
    · simp [newMeta, List.drop_length] at hm
    · split at hm
      · simp [newMeta, List.drop_length] at hm
      · split at hm
        · simp [newMeta, List.drop_length] at hm
        · simp only [newMeta, appendDocs, List.drop_left] at hm
          rcases List.mem_map.mp hm with ⟨ic, _, hmk⟩
          subst hmk
          exact ⟨rfl, rfl, rfl, rfl⟩
  · intro enc fs path s data hfs m hm
    simp only [TextIndexer.index_file, hfs] at hm
    split at hm
    · simp [newMeta, List.drop_length] at hm
    · simp only [newMeta, appendDocs, List.drop_left] at hm
      simp only [process_json_file] at hm
      split at hm
      · rcases List.mem_filterMap.mp hm with ⟨it, _, hsome⟩
        split at hsome
        · rw [Option.some_inj] at hsome
          subst hsome
          exact ⟨rfl, rfl, rfl, rfl⟩
        · simp at hsome
      · simp only [List.mem_singleton] at hm
        subst hm
        exact ⟨rfl, rfl, rfl, rfl⟩
      · simp at hm

/-- C4 (amended, witness): one concrete successful run per branch. -/
theorem c4_amended_metadata_keys_witness :
    reqKeys "text" ((newMeta initialState
      (TextIndexer.index_file encW fsT1 "f.txt" initialState).2).getD 0
        ([] : Metadata)) ∧
    reqKeys "pdf" ((newMeta initialState
      (PDFIndexer.index_file encW fsP1 "f.pdf" initialState).2).getD 0
        ([] : Metadata)) ∧
    reqKeys "image" ((newMeta initialState
      (ImageIndexer.index_file encW fsI1 "f.png" initialState).2).getD 0
        ([] : Metadata)) ∧
    reqKeys "video" ((newMeta initialState
      (VideoIndexer.index_file encW fsV1 "t.wav" "f.mp4" initialState []).2.1).getD 0
        ([] : Metadata)) ∧
    ((newMeta initialState
      (TextIndexer.index_file encW fsJ "data.json" initialState).2).getD 0
        ([] : Metadata)).hasKey "chunk_index" = false := by
  refine ⟨?_, ?_, ?_, ?_, ?_⟩
  · refine c4_amended_metadata_keys.1 encW fsT1 "f.txt" initialState "a" rfl _ ?_
    show _ ∈ [(newMeta initialState
      (TextIndexer.index_file encW fsT1 "f.txt" initialState).2).getD 0 ([] : Metadata)]
    exact List.mem_singleton.mpr rfl
  · refine c4_amended_metadata_keys.2.1 encW fsP1 "f.pdf" initialState "Hello."
      ⟨1, "pdfplumber", none⟩ rfl _ ?_
    show _ ∈ [(newMeta initialState
      (PDFIndexer.index_file encW fsP1 "f.pdf" initialState).2).getD 0 ([] : Metadata)]
    exact List.mem_singleton.mpr rfl
  · refine c4_amended_metadata_keys.2.2.1 encW fsI1 "f.png" initialState
      (ImageMeta.err MVal.nil MVal.nil MVal.nil) none "img" rfl _ ?_
    show _ ∈ [(newMeta initialState
      (ImageIndexer.index_file encW fsI1 "f.png" initialState).2).getD 0 ([] : Metadata)]
    exact List.mem_singleton.mpr rfl
  · refine c4_amended_metadata_keys.2.2.2.1 encW fsV1 "t.wav" "f.mp4" initialState []
      vdPl rfl _ ?_
    show _ ∈ [(newMeta initialState
      (VideoIndexer.index_file encW fsV1 "t.wav" "f.mp4" initialState []).2.1).getD 0
        ([] : Metadata)]
    exact List.mem_singleton.mpr rfl
  · refine (c4_amended_metadata_keys.2.2.2.2 encW fsJ "data.json" initialState
      (JVal.obj [("a", JVal.str "b")]) rfl _ ?_).2.2.1
    show _ ∈ [(newMeta initialState
      (TextIndexer.index_file encW fsJ "data.json" initialState).2).getD 0
        ([] : Metadata)]
    exact List.mem_singleton.mpr rfl

end Indexing
